import Mathlib

/-
Shallow embedding of the WebRTC signalling relay (src/main.go).

Modelling conventions:
* A `*websocket.Conn` handle is opaque to the router; we model it as a `Nat`
  identifier (`0` plays the role of Go's nil zero value returned by a map
  miss).
* The Go map `map[string]*websocket.Conn` is modelled extensionally as a
  function `String → Option Conn`; `Add` / `Remove` / `Get` mirror the three
  methods of `ConnectionManager` (main.go lines 40-59).  The `sync.RWMutex`
  is a real-time concurrency artefact with no sequential content; the
  registry claims are stated over sequential op traces.
* JSON (un)marshalling is external (`encoding/json`).  An inbound wire frame
  is modelled by its parse outcome: `WireMsg.malformed` when
  `json.Unmarshal` into the generic envelope fails, and
  `WireMsg.json st u s c` for a JSON object whose string fields
  `signalType` / `userId` / `sdp_base64` / `candidate` decode to
  `st` / `u` / `s` / `c` (an absent field decodes to Go's zero value `""`).
* `conn.ReadMessage()` outcomes are modelled by `ReadEvent`: `failed` when
  the read returns a non-nil error (then `message` is nil and the subsequent
  `json.Unmarshal` also fails), `ok m` when a frame `m` was read.
* A `WriteJSON` on a target connection is modelled by the pair
  `(targetConn, message)` that the router attempts to write; a write error is
  logged and ignored by the source, so it does not appear in the state.
* `forwardSignal` (main.go lines 141-159) is declared over
  `SignalMessageSdp` but is invoked with both variants (main.go lines 120 and
  125; the trailing comment in the file records the intent that it accept
  both).  We embed it over the two-variant sum `SignalMessage`.
* `uuid.New().String()` and the success of the identity-disclosure
  `WriteJSON` (main.go line 97) are external inputs; `handleConnection`
  receives them as parameters.
-/

namespace Signaller

/-- An opaque connection handle standing in for `*websocket.Conn`. -/
abbrev Conn := Nat

/-- `ConnectionManager` (main.go lines 27-30): the registry mapping
identity to connection handle, modelled extensionally. -/
structure ConnectionManager where
  connections : String → Option Conn

/-- `NewConnectionManager` (main.go lines 33-37): empty registry. -/
def NewConnectionManager : ConnectionManager :=
  ⟨fun _ => none⟩

/-- `Add` (main.go lines 40-44): insert or overwrite the entry for `id`. -/
def ConnectionManager.Add (cm : ConnectionManager) (id : String) (conn : Conn) :
    ConnectionManager :=
  ⟨fun k => if k = id then some conn else cm.connections k⟩

/-- `Remove` (main.go lines 47-51): `delete(cm.connections, id)`. -/
def ConnectionManager.Remove (cm : ConnectionManager) (id : String) :
    ConnectionManager :=
  ⟨fun k => if k = id then none else cm.connections k⟩

/-- `Get` (main.go lines 54-59): Go's two-valued map read
`conn, exists := cm.connections[id]`; a miss yields the zero value `0`
(nil) paired with `false`. -/
def ConnectionManager.Get (cm : ConnectionManager) (id : String) : Conn × Bool :=
  match cm.connections id with
  | some conn => (conn, true)
  | none => (0, false)

/-- `SignalMessageSdp` (main.go lines 62-66). -/
structure SignalMessageSdp where
  SignalType : String
  UserID : String
  SDP : String
deriving DecidableEq

/-- `SignalMessageCandidate` (main.go lines 68-72). -/
structure SignalMessageCandidate where
  SignalType : String
  UserID : String
  Candidate : String
deriving DecidableEq

/-- The two envelope variants `forwardSignal` is invoked with
(main.go lines 117-126). -/
inductive SignalMessage where
  | sdp (m : SignalMessageSdp)
  | candidate (m : SignalMessageCandidate)
deriving DecidableEq

/-- The `userId` field of either variant. -/
def SignalMessage.UserID : SignalMessage → String
  | .sdp m => m.UserID
  | .candidate m => m.UserID

/-- The field assignment `message.UserID = senderID` (main.go line 146),
on either variant. -/
def SignalMessage.setUserID : SignalMessage → String → SignalMessage
  | .sdp m, i => .sdp { m with UserID := i }
  | .candidate m, i => .candidate { m with UserID := i }

/-- `WebSocketServer` (main.go lines 75-77). -/
structure WebSocketServer where
  connectionManager : ConnectionManager

/-- `forwardSignal` (main.go lines 141-159): save `targetID`, stamp the
sender's identity into `userId`, look the target up, and either drop
(lookup miss, main.go lines 150-153) or attempt `WriteJSON` on the target
connection (main.go line 156; a write error is logged and ignored).  The
returned pair is (server state, attempted write). -/
def WebSocketServer.forwardSignal (ws : WebSocketServer) (senderID : String)
    (message : SignalMessage) : WebSocketServer × Option (Conn × SignalMessage) :=
  let targetID := message.UserID
  let message := message.setUserID senderID
  let looked := ws.connectionManager.Get targetID
  if looked.2 = false then
    (ws, none)
  else
    (ws, some (looked.1, message))

/-- `closeConnection` (main.go lines 162-166): `conn.Close()` (external)
then `Remove id`. -/
def WebSocketServer.closeConnection (ws : WebSocketServer) (id : String)
    (conn : Conn) : WebSocketServer :=
  let _ := conn
  ⟨ws.connectionManager.Remove id⟩

/-- One inbound wire frame, by its JSON parse outcome (see header note). -/
inductive WireMsg where
  | malformed
  | json (signalType userId sdp candidate : String)
deriving DecidableEq

/-- Outcome of one `conn.ReadMessage()` (main.go line 104). -/
inductive ReadEvent where
  | failed
  | ok (m : WireMsg)
deriving DecidableEq

/-- One iteration of the message loop body (main.go lines 103-137).
Returns (attempted forward, whether the loop `break`s).

Control-flow note, faithful to the source: line 110 reassigns `err` to the
result of `json.Unmarshal(message, &genericMessage)`, discarding the
`ReadMessage` error; the `if err != nil { ... break }` at lines 129-134
therefore fires on the UNMARSHAL error.  So: a transport read failure
breaks (nil message also fails to unmarshal), and a successfully read but
malformed frame ALSO breaks; a well-formed JSON object never breaks,
whatever its `signalType`. -/
def WebSocketServer.loopBody (ws : WebSocketServer) (id : String) (ev : ReadEvent) :
    Option (Conn × SignalMessage) × Bool :=
  match ev with
  | .failed => (none, true)
  | .ok .malformed => (none, true)
  | .ok (.json st u s c) =>
      let fwd :=
        if st = "sdp" then
          (ws.forwardSignal id (SignalMessage.sdp ⟨st, u, s⟩)).2
        else if st = "candidate" then
          (ws.forwardSignal id (SignalMessage.candidate ⟨st, u, c⟩)).2
        else
          none
      (fwd, false)

/-- The `for` loop of `handleConnection` (main.go lines 103-137) run over a
finite trace of read outcomes; collects the attempted forwards in order and
stops at the first iteration that `break`s. -/
def WebSocketServer.readLoop (ws : WebSocketServer) (id : String) :
    List ReadEvent → List (Conn × SignalMessage)
  | [] => []
  | ev :: rest =>
      let step := ws.loopBody id ev
      if step.2 then step.1.toList
      else step.1.toList ++ ws.readLoop id rest

/-- `handleConnection` (main.go lines 87-138): `Add id conn`, defer
`closeConnection`, send the identity-disclosure message (its success is the
external input `identityWriteOk`; on failure, `return` at line 99 skips the
read loop), else run the read loop.  Returns (state after the deferred
`closeConnection`, forwards attempted). -/
def WebSocketServer.handleConnection (ws : WebSocketServer) (id : String)
    (conn : Conn) (identityWriteOk : Bool) (events : List ReadEvent) :
    WebSocketServer × List (Conn × SignalMessage) :=
  let ws1 : WebSocketServer := ⟨ws.connectionManager.Add id conn⟩
  if identityWriteOk then
    (ws1.closeConnection id conn, ws1.readLoop id events)
  else
    (ws1.closeConnection id conn, [])

/-- A mutating registry operation, for stating trace properties of the
`ConnectionManager` API. -/
inductive RegOp where
  | add (id : String) (conn : Conn)
  | remove (id : String)
deriving DecidableEq

/-- Apply one registry operation. -/
def RegOp.apply (cm : ConnectionManager) : RegOp → ConnectionManager
  | .add id conn => cm.Add id conn
  | .remove id => cm.Remove id

/-- Run a sequence of registry operations. -/
def runOps (cm : ConnectionManager) (ops : List RegOp) : ConnectionManager :=
  ops.foldl RegOp.apply cm

/-- Whether an operation addresses the key `id`. -/
def RegOp.touches : RegOp → String → Bool
  | .add i _, id => i == id
  | .remove i, id => i == id

/-- The last operation in `ops` that addresses `id`, if any. -/
def lastTouch (ops : List RegOp) (id : String) : Option RegOp :=
  ops.reverse.find? (fun op => op.touches id)

/-- A concrete server used to instantiate witnesses: identity `"B1"` is
registered with handle `7` and identity `"A1"` with handle `5`. -/
def demoServer : WebSocketServer :=
  ⟨⟨fun k => if k = "B1" then some 7 else if k = "A1" then some 5 else none⟩⟩

/- ### Helper lemmas -/

/-- Stamping the sender identity sets the `userId` field. -/
lemma SignalMessage.setUserID_UserID (m : SignalMessage) (i : String) :
    (m.setUserID i).UserID = i := by
  cases m <;> rfl

/-- `forwardSignal` unfolded at a registry hit. -/
lemma forwardSignal_of_get_some (ws : WebSocketServer) (senderID : String)
    (msg : SignalMessage) (conn : Conn)
    (h : ws.connectionManager.connections msg.UserID = some conn) :
    ws.forwardSignal senderID msg = (ws, some (conn, msg.setUserID senderID)) := by
  simp [WebSocketServer.forwardSignal, ConnectionManager.Get, h]

/-- `forwardSignal` unfolded at a registry miss. -/
lemma forwardSignal_of_get_none (ws : WebSocketServer) (senderID : String)
    (msg : SignalMessage)
    (h : ws.connectionManager.connections msg.UserID = none) :
    ws.forwardSignal senderID msg = (ws, none) := by
  simp [WebSocketServer.forwardSignal, ConnectionManager.Get, h]

/-- Any attempted write produced by `forwardSignal` carries the
sender-stamped message and the handle registered for the target. -/
lemma forwardSignal_eq_some (ws : WebSocketServer) (senderID : String)
    (msg : SignalMessage) (conn : Conn) (out : SignalMessage)
    (h : (ws.forwardSignal senderID msg).2 = some (conn, out)) :
    out = msg.setUserID senderID ∧
      ws.connectionManager.connections msg.UserID = some conn := by
  cases hc : ws.connectionManager.connections msg.UserID with
  | none =>
      rw [forwardSignal_of_get_none ws senderID msg hc] at h
      exact absurd h (by simp)
  | some c =>
      rw [forwardSignal_of_get_some ws senderID msg c hc] at h
      simp only [Option.some.injEq, Prod.mk.injEq] at h
      exact ⟨h.2.symm, congrArg some h.1⟩

/-- Unfolding `lastTouch` over a cons: the last touching op of `op :: ops`
is the last touching op of `ops` if one exists, else `op` itself when it
touches. -/
lemma lastTouch_cons (op : RegOp) (ops : List RegOp) (id : String) :
    lastTouch (op :: ops) id =
      match lastTouch ops id with
      | some o => some o
      | none => if op.touches id then some op else none := by
  simp only [lastTouch, List.reverse_cons, List.find?_append]
  cases (ops.reverse.find? (fun o => o.touches id)) with
  | none => cases htc : op.touches id <;> simp [htc]
  | some o => rfl

/-- Evaluation of a trace of registry operations at one key: the entry is
determined by the last operation addressing that key. -/
lemma runOps_connections (ops : List RegOp) (cm : ConnectionManager) (id : String) :
    (runOps cm ops).connections id =
      match lastTouch ops id with
      | some (RegOp.add _ c) => some c
      | some (RegOp.remove _) => none
      | none => cm.connections id := by
  induction ops generalizing cm with
  | nil => rfl
  | cons op ops ih =>
      have hrun : runOps cm (op :: ops) = runOps (op.apply cm) ops := rfl
      rw [hrun, ih, lastTouch_cons]
      cases h : lastTouch ops id with
      | some o => cases o <;> rfl
      | none =>
          cases op with
          | add i c =>
              by_cases hi : i = id
              · subst hi
                simp [RegOp.touches, RegOp.apply, ConnectionManager.Add]
              · simp [RegOp.touches, RegOp.apply, ConnectionManager.Add, hi,
                  Ne.symm hi]
          | remove i =>
              by_cases hi : i = id
              · subst hi
                simp [RegOp.touches, RegOp.apply, ConnectionManager.Remove]
              · simp [RegOp.touches, RegOp.apply, ConnectionManager.Remove, hi,
                  Ne.symm hi]

/-- An op returned by `lastTouch ops id` addresses `id`. -/
lemma lastTouch_touches (ops : List RegOp) (id : String) (op : RegOp)
    (h : lastTouch ops id = some op) : op.touches id = true := by
  have h2 : ops.reverse.find? (fun o => o.touches id) = some op := h
  have h3 := List.find?_some h2
  simpa using h3

/-- Removing the same key twice equals removing it once. -/
lemma ConnectionManager.ext_of (cm cm2 : ConnectionManager)
    (h : ∀ k, cm.connections k = cm2.connections k) : cm = cm2 := by
  cases cm
  cases cm2
  congr 1
  funext k
  exact h k

/-- `Remove` is idempotent on the registry state. -/
lemma Remove_Remove (cm : ConnectionManager) (id : String) :
    (cm.Remove id).Remove id = cm.Remove id := by
  apply ConnectionManager.ext_of
  intro k
  by_cases hk : k = id <;> simp [ConnectionManager.Remove, hk]

/-- `Remove` of an absent key is the identity on the registry state. -/
lemma Remove_absent (cm : ConnectionManager) (id : String)
    (h : cm.connections id = none) : cm.Remove id = cm := by
  apply ConnectionManager.ext_of
  intro k
  by_cases hk : k = id <;> simp [ConnectionManager.Remove, hk, h]

/- ### Claim theorems -/

/-- Claim C1, refuted by the code: the spec says a parse failure of an
inbound message is recovered locally (message dropped, loop continues,
connection stays registered), but main.go line 110 reassigns `err` to the
`json.Unmarshal` result, so the `break` at lines 129-134 fires on a parse
error.  Concretely: with `"B1"` registered, a malformed frame produces no
forward AND breaks the loop (`loopBody = (none, true)`), so a subsequent
well-formed sdp frame to `"B1"` is never read — while that same sdp frame
alone would have been forwarded. -/
theorem parse_failure_breaks_loop :
    demoServer.loopBody "A1" (ReadEvent.ok WireMsg.malformed) = (none, true) ∧
    demoServer.readLoop "A1"
        [ReadEvent.ok WireMsg.malformed,
         ReadEvent.ok (WireMsg.json "sdp" "B1" "xyz" "")] = [] ∧
    demoServer.readLoop "A1" [ReadEvent.ok (WireMsg.json "sdp" "B1" "xyz" "")] =
      [(7, SignalMessage.sdp ⟨"sdp", "A1", "xyz"⟩)] := by
  refine ⟨rfl, rfl, ?_⟩
  decide

/-- Claim C2: every envelope `forwardSignal` writes to a recipient carries
`userId` equal to the identity of the sending connection, whatever `userId`
value the sender put in the envelope. -/
theorem forwarded_userId_is_sender (ws : WebSocketServer) (senderID : String)
    (msg : SignalMessage) (conn : Conn) (out : SignalMessage)
    (h : (ws.forwardSignal senderID msg).2 = some (conn, out)) :
    out.UserID = senderID := by
  rcases forwardSignal_eq_some ws senderID msg conn out h with ⟨ho, _⟩
  rw [ho, SignalMessage.setUserID_UserID]

/-- Witness for C2 at a concrete input: sender `"A1"` addresses `"B1"`
(registered with handle 7); the delivered envelope carries `userId = "A1"`. -/
theorem forwarded_userId_is_sender_witness :
    (demoServer.forwardSignal "A1"
        (SignalMessage.sdp ⟨"sdp", "B1", "xyz"⟩)).2 =
      some (7, SignalMessage.sdp ⟨"sdp", "A1", "xyz"⟩) ∧
    (SignalMessage.sdp (⟨"sdp", "A1", "xyz"⟩ : SignalMessageSdp)).UserID = "A1" :=
  ⟨by decide,
   forwarded_userId_is_sender demoServer "A1"
     (SignalMessage.sdp ⟨"sdp", "B1", "xyz"⟩) 7
     (SignalMessage.sdp ⟨"sdp", "A1", "xyz"⟩) (by decide)⟩

/-- Claim C3: forwarding preserves every field except `userId` — the
delivered envelope is the inbound one with only `userId` rewritten; in
particular an sdp envelope keeps its `sdp_base64` blob and a candidate
envelope keeps its `candidate` string (and both keep `signalType`). -/
theorem forwarded_payload_preserved (ws : WebSocketServer) (senderID : String)
    (msg : SignalMessage) (conn : Conn) (out : SignalMessage)
    (h : (ws.forwardSignal senderID msg).2 = some (conn, out)) :
    out = msg.setUserID senderID ∧
    (∀ m : SignalMessageSdp, msg = SignalMessage.sdp m →
        out = SignalMessage.sdp ⟨m.SignalType, senderID, m.SDP⟩) ∧
    (∀ m : SignalMessageCandidate, msg = SignalMessage.candidate m →
        out = SignalMessage.candidate ⟨m.SignalType, senderID, m.Candidate⟩) := by
  rcases forwardSignal_eq_some ws senderID msg conn out h with ⟨ho, _⟩
  subst ho
  refine ⟨rfl, ?_, ?_⟩
  · rintro m rfl
    rfl
  · rintro m rfl
    rfl

/-- Witness for C3 at a concrete input: a candidate envelope from `"A1"`
to `"B1"` is delivered with its candidate string `"c0"` unchanged. -/
theorem forwarded_payload_preserved_witness :
    ((SignalMessage.candidate ⟨"candidate", "A1", "c0"⟩ : SignalMessage) =
      (SignalMessage.candidate ⟨"candidate", "B1", "c0"⟩ :
        SignalMessage).setUserID "A1") ∧
    (∀ m : SignalMessageSdp,
        (SignalMessage.candidate ⟨"candidate", "B1", "c0"⟩ : SignalMessage) =
          SignalMessage.sdp m →
        (SignalMessage.candidate ⟨"candidate", "A1", "c0"⟩ : SignalMessage) =
          SignalMessage.sdp ⟨m.SignalType, "A1", m.SDP⟩) ∧
    (∀ m : SignalMessageCandidate,
        (SignalMessage.candidate ⟨"candidate", "B1", "c0"⟩ : SignalMessage) =
          SignalMessage.candidate m →
        (SignalMessage.candidate ⟨"candidate", "A1", "c0"⟩ : SignalMessage) =
          SignalMessage.candidate ⟨m.SignalType, "A1", m.Candidate⟩) :=
  forwarded_payload_preserved demoServer "A1"
    (SignalMessage.candidate ⟨"candidate", "B1", "c0"⟩) 7
    (SignalMessage.candidate ⟨"candidate", "A1", "c0"⟩) (by decide)

/-- Claim C5: on a routing miss (target identity not registered at lookup
time) `forwardSignal` returns with no write attempted — no forward, no
NACK to the sender — and the server state (hence the registry) unchanged. -/
theorem routing_miss_silent (ws : WebSocketServer) (senderID : String)
    (msg : SignalMessage)
    (h : ws.connectionManager.connections msg.UserID = none) :
    ws.forwardSignal senderID msg = (ws, none) :=
  forwardSignal_of_get_none ws senderID msg h

/-- Witness for C5 at a concrete input: `"Z9"` was never registered. -/
theorem routing_miss_silent_witness :
    demoServer.forwardSignal "A1" (SignalMessage.sdp ⟨"sdp", "Z9", "xyz"⟩) =
      (demoServer, none) :=
  routing_miss_silent demoServer "A1" (SignalMessage.sdp ⟨"sdp", "Z9", "xyz"⟩)
    (by decide)

/-- Claim C6: a frame that parses as a JSON object whose `signalType` is
neither `"sdp"` nor `"candidate"` (including absent, decoding to `""`)
produces no forward and does not break the loop: processing it is
equivalent to skipping it. -/
theorem unknown_signalType_dropped (ws : WebSocketServer) (id : String)
    (st u s c : String) (rest : List ReadEvent)
    (h1 : st ≠ "sdp") (h2 : st ≠ "candidate") :
    ws.loopBody id (ReadEvent.ok (WireMsg.json st u s c)) = (none, false) ∧
    ws.readLoop id (ReadEvent.ok (WireMsg.json st u s c) :: rest) =
      ws.readLoop id rest := by
  have hb : ws.loopBody id (ReadEvent.ok (WireMsg.json st u s c)) =
      (none, false) := by
    simp [WebSocketServer.loopBody, h1, h2]
  refine ⟨hb, ?_⟩
  simp [WebSocketServer.readLoop, hb]

/-- Witness for C6 at a concrete input: the superseded tag `"offer"` is
dropped and the loop goes on to forward the next (sdp) frame. -/
theorem unknown_signalType_dropped_witness :
    demoServer.loopBody "A1" (ReadEvent.ok (WireMsg.json "offer" "B1" "x" "")) =
      (none, false) ∧
    demoServer.readLoop "A1"
        [ReadEvent.ok (WireMsg.json "offer" "B1" "x" ""),
         ReadEvent.ok (WireMsg.json "sdp" "B1" "xyz" "")] =
      demoServer.readLoop "A1" [ReadEvent.ok (WireMsg.json "sdp" "B1" "xyz" "")] :=
  unknown_signalType_dropped demoServer "A1" "offer" "B1" "x" ""
    [ReadEvent.ok (WireMsg.json "sdp" "B1" "xyz" "")] (by decide) (by decide)

/-- Claim C8: when the identity-disclosure write fails, `handleConnection`
never enters the read loop — whatever frames the transport would have
delivered, no forward is attempted — and the deferred `closeConnection`
runs, leaving no registry entry for the identity. -/
theorem identity_write_failure_skips_loop (ws : WebSocketServer) (id : String)
    (conn : Conn) (events : List ReadEvent) :
    ws.handleConnection id conn false events =
      ((⟨ws.connectionManager.Add id conn⟩ :
        WebSocketServer).closeConnection id conn, []) ∧
    (ws.handleConnection id conn false events).1.connectionManager.connections
        id = none := by
  refine ⟨rfl, ?_⟩
  simp [WebSocketServer.handleConnection, WebSocketServer.closeConnection,
    ConnectionManager.Remove]

/-- Claim C9: an envelope addressed by a sender to its own identity is
looked up like any other target; since the sender is registered, it is
delivered back to the sender's own channel with `userId` rewritten to that
same identity. -/
theorem self_addressed_delivered (ws : WebSocketServer) (id : String)
    (conn : Conn) (msg : SignalMessage)
    (h1 : ws.connectionManager.connections id = some conn)
    (h2 : msg.UserID = id) :
    (ws.forwardSignal id msg).2 = some (conn, msg.setUserID id) := by
  have hs := forwardSignal_of_get_some ws id msg conn (by rw [h2]; exact h1)
  rw [hs]

/-- Witness for C9 at a concrete input: `"A1"` (handle 5) addresses itself
and receives the envelope on its own channel with `userId = "A1"`. -/
theorem self_addressed_delivered_witness :
    (demoServer.forwardSignal "A1"
        (SignalMessage.sdp ⟨"sdp", "A1", "loop"⟩)).2 =
      some (5, (SignalMessage.sdp ⟨"sdp", "A1", "loop"⟩ :
        SignalMessage).setUserID "A1") :=
  self_addressed_delivered demoServer "A1" 5
    (SignalMessage.sdp ⟨"sdp", "A1", "loop"⟩) (by decide) (by decide)

/-- Claim C10: `forwardSignal` never mutates the registry — the server
state component of its result is the input state, for every sender,
envelope and outcome (delivered, miss, or failed write, which the source
only logs). -/
theorem forwardSignal_registry_unchanged (ws : WebSocketServer)
    (senderID : String) (msg : SignalMessage) :
    (ws.forwardSignal senderID msg).1 = ws := by
  cases hc : ws.connectionManager.connections msg.UserID with
  | none => rw [forwardSignal_of_get_none ws senderID msg hc]
  | some conn => rw [forwardSignal_of_get_some ws senderID msg conn hc]

/-- Claim C4: over any sequence of `Add`/`Remove` operations from the empty
registry, `Get id` returns `(c, true)` exactly when the last operation
addressing `id` is `Add id c` (i.e. `c` is the most recently added handle
and no `Remove id` followed), and returns `found = false` exactly when no
add is that last operation.  All operations are total functions, so absence
is the normal `found = false` outcome, never an error. -/
theorem get_returns_most_recent_add (ops : List RegOp) (id : String) (c : Conn) :
    ((runOps NewConnectionManager ops).Get id = (c, true) ↔
        lastTouch ops id = some (RegOp.add id c)) ∧
    (((runOps NewConnectionManager ops).Get id).2 = false ↔
        ∀ c2, lastTouch ops id ≠ some (RegOp.add id c2)) := by
  have hrc := runOps_connections ops NewConnectionManager id
  cases hl : lastTouch ops id with
  | none =>
      rw [hl] at hrc
      have hrc2 : (runOps NewConnectionManager ops).connections id = none :=
        hrc.trans rfl
      refine ⟨?_, ?_⟩
      · simp [ConnectionManager.Get, hrc2, Prod.ext_iff]
      · simp [ConnectionManager.Get, hrc2]
  | some op =>
      have ht := lastTouch_touches ops id op hl
      cases op with
      | add i cc =>
          have hi : i = id := by simpa [RegOp.touches] using ht
          subst hi
          rw [hl] at hrc
          refine ⟨?_, ?_⟩
          · simp [ConnectionManager.Get, hrc, Prod.ext_iff, eq_comm]
          · refine iff_of_false (by simp [ConnectionManager.Get, hrc]) ?_
            intro hall
            exact hall cc rfl
      | remove i =>
          rw [hl] at hrc
          refine ⟨?_, ?_⟩
          · simp [ConnectionManager.Get, hrc, Prod.ext_iff]
          · simp [ConnectionManager.Get, hrc, hl]

/-- Witness for C4 at a concrete trace: add `"a" ↦ 3`, add `"a" ↦ 4`,
then remove `"a"`. -/
theorem get_returns_most_recent_add_witness :
    ((runOps NewConnectionManager
        [RegOp.add "a" 3, RegOp.add "a" 4, RegOp.remove "a"]).Get "a" =
          (4, true) ↔
      lastTouch [RegOp.add "a" 3, RegOp.add "a" 4, RegOp.remove "a"] "a" =
        some (RegOp.add "a" 4)) ∧
    (((runOps NewConnectionManager
        [RegOp.add "a" 3, RegOp.add "a" 4, RegOp.remove "a"]).Get "a").2 =
          false ↔
      ∀ c2, lastTouch [RegOp.add "a" 3, RegOp.add "a" 4, RegOp.remove "a"] "a" ≠
        some (RegOp.add "a" c2)) :=
  get_returns_most_recent_add
    [RegOp.add "a" 3, RegOp.add "a" 4, RegOp.remove "a"] "a" 4

/-- Claim C7: the disconnect path is idempotent — a second `Remove` of the
same identity is a no-op leaving the registry exactly as it was, `Remove`
of an absent identity leaves the registry unchanged, and running
`closeConnection` twice for the same identity equals running it once. -/
theorem teardown_idempotent (cm : ConnectionManager) (ws : WebSocketServer)
    (id : String) (conn : Conn) :
    (cm.Remove id).Remove id = cm.Remove id ∧
    (cm.connections id = none → cm.Remove id = cm) ∧
    (ws.closeConnection id conn).closeConnection id conn =
      ws.closeConnection id conn := by
  refine ⟨Remove_Remove cm id, Remove_absent cm id, ?_⟩
  show (⟨(ws.connectionManager.Remove id).Remove id⟩ : WebSocketServer) =
    ⟨ws.connectionManager.Remove id⟩
  rw [Remove_Remove]

/-- Witness for C7 at a concrete input, with the inner hypothesis
(absence of `"Z9"`) discharged concretely. -/
theorem teardown_idempotent_witness :
    ((NewConnectionManager.Remove "Z9").Remove "Z9" =
        NewConnectionManager.Remove "Z9") ∧
    (NewConnectionManager.Remove "Z9" = NewConnectionManager) ∧
    ((demoServer.closeConnection "Z9" 0).closeConnection "Z9" 0 =
        demoServer.closeConnection "Z9" 0) :=
  ⟨(teardown_idempotent NewConnectionManager demoServer "Z9" 0).1,
   (teardown_idempotent NewConnectionManager demoServer "Z9" 0).2.1 (by decide),
   (teardown_idempotent NewConnectionManager demoServer "Z9" 0).2.2⟩

end Signaller
